import Mathlib

/-!
Shallow embedding of the Dottify music-catalog application
(`src/models.py`, `src/views.py`, `src/api_views.py`, `src/serializers.py`,
`src/urls.py`), with theorems settling the specification claims about its
authorization, scoping, aggregation, canonical-slug and position-assignment
behaviour.
-/

namespace Dottify

/-! ## Data model (`src/models.py`) -/

/-- `DottifyUser` (`models.py`): a profile linked one-to-one to an auth user,
with a display name. -/
structure DottifyUser where
  id : Nat
  displayName : String
deriving Repr, DecidableEq

/-- `Album` (`models.py`): `artist_account` is a nullable foreign key to
`DottifyUser`, modelled by the owner's id or `none`.  The fields not touched
by any claim (cover image, price, format, release date) are omitted from the
record but none of the embedded operations reads them. -/
structure Album where
  id : Nat
  title : String
  artistName : String
  artistAccount : Option Nat
  slug : String
deriving Repr, DecidableEq

/-- `Song` (`models.py`): `position` is a nullable positive integer assigned
by `Song.save`, `album` a foreign key to `Album`. -/
structure Song where
  id : Nat
  title : String
  length : Nat
  position : Option Nat
  albumId : Nat
deriving Repr, DecidableEq

/-- `Playlist.Visibility` (`models.py`): `HIDDEN = 0`, `UNLISTED = 1`,
`PUBLIC = 2`, integer-valued choices. -/
inductive Visibility where
  | hidden
  | unlisted
  | public
deriving Repr, DecidableEq

/-- `Playlist` (`models.py`): owned by a `DottifyUser`, with a visibility
state defaulting to `HIDDEN`. -/
structure Playlist where
  id : Nat
  name : String
  visibility : Visibility
  owner : Nat
deriving Repr, DecidableEq

/-- `Rating` (`models.py`): decimal `stars` (modelled as a rational), an
optional owning album, and an `auto_now_add` creation timestamp, modelled
as an integer number of days. -/
structure Rating where
  stars : ℚ
  albumId : Option Nat
  createdAt : Int
deriving Repr, DecidableEq

/-- The persistent store: one list per table, standing for
`<Model>.objects.all()` of each model the claims touch. -/
structure DB where
  users : List DottifyUser
  albums : List Album
  songs : List Song
  playlists : List Playlist
  ratings : List Rating
deriving Repr, DecidableEq

/-- The principal boundary (`request.user`): `is_authenticated`, the set of
group names (`user.groups`), and the result of
`DottifyUser.objects.get(user=user)` — `some id` when the profile row
exists, `none` when the lookup raises `DottifyUser.DoesNotExist`. -/
structure Principal where
  isAuthenticated : Bool
  groups : List String
  profileId : Option Nat
deriving Repr, DecidableEq

/-- `user.groups.filter(name=g).exists()`. -/
def inGroup (user : Principal) (g : String) : Bool :=
  user.groups.contains g

/-! ## Browsable views (`src/views.py`) -/

/-- `HomeView.get_queryset` (`views.py`): anonymous and `DottifyAdmin`
principals list all albums; an `Artist` principal lists the albums whose
`artist_account` is their profile (none when the profile lookup fails);
any other authenticated principal gets `Album.objects.none()`. -/
def homeViewGetQueryset (user : Principal) (db : DB) : List Album :=
  if !user.isAuthenticated then db.albums
  else if inGroup user "DottifyAdmin" then db.albums
  else if inGroup user "Artist" then
    match user.profileId with
    | some du => db.albums.filter (fun a => a.artistAccount == some du)
    | none => []
  else []

/-- Outcomes of a browsable view request: `loginRedirect` is the
`LoginRequiredMixin` redirect for an anonymous principal, `forbidden403`
the `UserPassesTestMixin` denial, `forbiddenNotYourAlbum` and
`forbiddenNoAccount` the two explicit `HttpResponseForbidden` returns of
`SongCreateView.form_valid`, and `allowed` means the mutating action
proceeds. -/
inductive ViewResult where
  | loginRedirect
  | forbidden403
  | forbiddenNotYourAlbum
  | forbiddenNoAccount
  | allowed
deriving Repr, DecidableEq

/-- `IsArtistOrAdminMixin.test_func` (`views.py`):
`user.groups.filter(name__in=['Artist', 'DottifyAdmin']).exists()`. -/
def isArtistOrAdminTestFunc (user : Principal) : Bool :=
  inGroup user "Artist" || inGroup user "DottifyAdmin"

/-- `AlbumCreateView` (`views.py`): `LoginRequiredMixin` then
`IsArtistOrAdminMixin`; a principal passing both may create the album. -/
def albumCreateView (user : Principal) : ViewResult :=
  if !user.isAuthenticated then .loginRedirect
  else if isArtistOrAdminTestFunc user then .allowed
  else .forbidden403

/-- `AlbumUpdateView.test_func` (`views.py`): admin, or artist owning the
album via `artist_account`; the `DoesNotExist` branch falls through to
`False`. -/
def albumUpdateTestFunc (user : Principal) (album : Album) : Bool :=
  if inGroup user "DottifyAdmin" then true
  else if inGroup user "Artist" then
    match user.profileId with
    | some du => album.artistAccount == some du
    | none => false
  else false

/-- `AlbumUpdateView` (`views.py`): `LoginRequiredMixin` then
`UserPassesTestMixin` over `albumUpdateTestFunc`. -/
def albumUpdateView (user : Principal) (album : Album) : ViewResult :=
  if !user.isAuthenticated then .loginRedirect
  else if albumUpdateTestFunc user album then .allowed
  else .forbidden403

/-- `AlbumDeleteView.test_func` (`views.py`): admin, or any principal whose
profile equals the album's `artist_account` — unlike the update view, this
`test_func` performs no `Artist` group check before the ownership lookup. -/
def albumDeleteTestFunc (user : Principal) (album : Album) : Bool :=
  if inGroup user "DottifyAdmin" then true
  else
    match user.profileId with
    | some du => album.artistAccount == some du
    | none => false

/-- `AlbumDeleteView` (`views.py`): `LoginRequiredMixin` then
`UserPassesTestMixin` over `albumDeleteTestFunc`. -/
def albumDeleteView (user : Principal) (album : Album) : ViewResult :=
  if !user.isAuthenticated then .loginRedirect
  else if albumDeleteTestFunc user album then .allowed
  else .forbidden403

/-- `SongCreateView.form_valid` (`views.py`): if the principal is in the
`Artist` group — with no prior `DottifyAdmin` check — the target album's
`artist_account` must equal the caller's profile, else
`HttpResponseForbidden`; a missing profile is also forbidden. -/
def songCreateFormValid (user : Principal) (album : Album) : ViewResult :=
  if inGroup user "Artist" then
    match user.profileId with
    | some du =>
      if album.artistAccount != some du then .forbiddenNotYourAlbum
      else .allowed
    | none => .forbiddenNoAccount
  else .allowed

/-- `SongCreateView` (`views.py`): `LoginRequiredMixin`,
`IsArtistOrAdminMixin`, then the ownership check in `form_valid`. -/
def songCreateView (user : Principal) (album : Album) : ViewResult :=
  if !user.isAuthenticated then .loginRedirect
  else if !isArtistOrAdminTestFunc user then .forbidden403
  else songCreateFormValid user album

/-- `SongUpdateView.test_func` (`views.py`): admin, or any principal whose
profile equals the song's album's `artist_account`. -/
def songUpdateTestFunc (user : Principal) (songAlbum : Album) : Bool :=
  if inGroup user "DottifyAdmin" then true
  else
    match user.profileId with
    | some du => songAlbum.artistAccount == some du
    | none => false

/-- `SongUpdateView` (`views.py`). -/
def songUpdateView (user : Principal) (songAlbum : Album) : ViewResult :=
  if !user.isAuthenticated then .loginRedirect
  else if songUpdateTestFunc user songAlbum then .allowed
  else .forbidden403

/-- `SongDeleteView.test_func` (`views.py`): identical logic to
`SongUpdateView.test_func`. -/
def songDeleteTestFunc (user : Principal) (songAlbum : Album) : Bool :=
  if inGroup user "DottifyAdmin" then true
  else
    match user.profileId with
    | some du => songAlbum.artistAccount == some du
    | none => false

/-- `SongDeleteView` (`views.py`). -/
def songDeleteView (user : Principal) (songAlbum : Album) : ViewResult :=
  if !user.isAuthenticated then .loginRedirect
  else if songDeleteTestFunc user songAlbum then .allowed
  else .forbidden403

/-! ## Album search (`views.py`, `album_search`) -/

/-- Lowercase a string character by character (the `lower()` step of a
case-insensitive comparison; the embedding covers ASCII case folding). -/
def lowerChars (s : String) : List Char :=
  s.data.map Char.toLower

/-- Whether the first list is an initial segment of the second. -/
def startsWithChars : List Char → List Char → Bool
  | [], _ => true
  | _ :: _, [] => false
  | a :: as, b :: bs => a == b && startsWithChars as bs

/-- Whether the first list occurs as a contiguous sublist of the second. -/
def containsChars : List Char → List Char → Bool
  | needle, [] => needle.isEmpty
  | needle, c :: cs => startsWithChars needle (c :: cs) || containsChars needle cs

/-- `title__icontains=query`: case-insensitive substring match. -/
def icontains (haystack needle : String) : Bool :=
  containsChars (lowerChars needle) (lowerChars haystack)

/-- Result of the `album_search` view: the explicit
`HttpResponse(status=401)` for anonymous principals, or the rendered page
carrying the matching albums and `total_results`. -/
inductive SearchResult where
  | unauthorized401
  | rendered (albums : List Album) (totalResults : Nat)
deriving Repr, DecidableEq

/-- `album_search` (`views.py`): a 401 for anonymous callers; otherwise
`Album.objects.filter(title__icontains=query) if query else
Album.objects.none()` — the Python truthiness test makes an empty query
yield the empty queryset, not the unfiltered one. -/
def album_search (user : Principal) (query : String) (db : DB) : SearchResult :=
  if !user.isAuthenticated then .unauthorized401
  else
    let albums :=
      if query != "" then db.albums.filter (fun a => icontains a.title query)
      else []
    .rendered albums albums.length

/-! ## Canonical slugs (`django.template.defaultfilters.slugify`,
`views.py` `user_detail`, `urls.py` album-detail routes) -/

/-- Characters matched by the regex class `\w` of
`re.sub(r"[^\w\s-]", "", ...)` on ASCII input: alphanumerics and the
underscore. -/
def isWordChar (c : Char) : Bool :=
  c.isAlphanum || c == '_'

/-- ASCII whitespace, the `\s` class of the slugify regexes. -/
def isSpaceChar (c : Char) : Bool :=
  c == ' ' || c == '\t' || c == '\n' || c == '\r' || c == '\x0b' || c == '\x0c'

/-- Characters kept by `re.sub(r"[^\w\s-]", "", value)`. -/
def keepSlugChar (c : Char) : Bool :=
  isWordChar c || isSpaceChar c || c == '-'

/-- `re.sub(r"[-\s]+", "-", value)`: replace each maximal run of hyphens
and whitespace with a single hyphen.  The boolean argument records whether
the previous emitted character closed such a run. -/
def collapseDashRuns : Bool → List Char → List Char
  | _, [] => []
  | inRun, c :: cs =>
    if isSpaceChar c || c == '-' then
      if inRun then collapseDashRuns true cs
      else '-' :: collapseDashRuns true cs
    else c :: collapseDashRuns false cs

/-- Python's `str.strip("-_")`: drop leading and trailing hyphens and
underscores. -/
def stripDashUnderscore (s : List Char) : List Char :=
  ((s.dropWhile (fun c => c == '-' || c == '_')).reverse.dropWhile
    (fun c => c == '-' || c == '_')).reverse

/-- `django.utils.text.slugify` with `allow_unicode=False`, restricted to
ASCII input (on which the NFKD-normalise-and-ASCII-encode step is the
identity): lowercase, drop characters outside `[\w\s-]`, collapse runs of
`[-\s]` to a single `-`, and strip `-`/`_` from both ends. -/
def slugify (s : String) : String :=
  String.mk
    (stripDashUnderscore
      (collapseDashRuns false ((s.data.map Char.toLower).filter keepSlugChar)))

/-- Result of the `user_detail` function view: Django's
`get_object_or_404`, the canonical-slug `redirect`, or the rendered page
with the profile's playlists. -/
inductive UserDetailResult where
  | notFound404
  | redirectTo (pk : Nat) (slug : String)
  | rendered (userId : Nat) (playlists : List Playlist)
deriving Repr, DecidableEq

/-- `user_detail` (`views.py`): fetch the profile or 404; compute
`correct_slug = slugify(display_name)`; redirect to the canonical URL when
the supplied slug (possibly absent, the no-slug route of `urls.py`) is not
equal to it; otherwise render the profile with its playlists. -/
def user_detail (db : DB) (pk : Nat) (slug : Option String) : UserDetailResult :=
  match db.users.find? (fun u => u.id == pk) with
  | none => .notFound404
  | some du =>
    let correctSlug := slugify du.displayName
    if slug != some correctSlug then .redirectTo pk correctSlug
    else .rendered du.id (db.playlists.filter (fun p => p.owner == du.id))

/-- Result of a `DetailView` request: found or 404 (`DetailView` has no
redirect path). -/
inductive DetailResult (α : Type) where
  | notFound404
  | rendered (entity : α)
deriving Repr, DecidableEq

/-- Object lookup of `AlbumDetailView` as dispatched by the `urls.py`
routes `albums/<int:pk>/` and `albums/<int:pk>/<slug:slug>/`: Django's
`SingleObjectMixin.get_object` filters by `pk` whenever `pk` is in the URL
kwargs and, since `query_pk_and_slug` is `False`, ignores the slug kwarg
entirely. -/
def albumDetailView (db : DB) (pk : Nat) (slug : Option String) :
    DetailResult Album :=
  let _ := slug
  match db.albums.find? (fun a => a.id == pk) with
  | none => .notFound404
  | some a => .rendered a

/-! ## Rating aggregation (`views.py`, `AlbumDetailView.get_context_data`) -/

/-- Django's `aggregate(Avg('stars'))` over a queryset: `none` when the
queryset is empty, otherwise the arithmetic mean. -/
def aggregateAvg (xs : List ℚ) : Option ℚ :=
  if xs.length = 0 then none else some (xs.sum / xs.length)

/-- Python's `x or 0.0` applied to the aggregate result: `None` and `0.0`
are falsy and give `0.0`; any other value passes through. -/
def pyOrZero : Option ℚ → ℚ
  | none => 0
  | some v => if v = 0 then 0 else v

/-- The ratings of an album: `album.rating_set.all()`. -/
def ratingSet (db : DB) (albumId : Nat) : List Rating :=
  db.ratings.filter (fun r => r.albumId == some albumId)

/-- Rating figures computed by `AlbumDetailView.get_context_data`
(`views.py`): the all-time average over `rating_set`, and the average over
ratings with `created_at >= now - 60 days`, each defaulted to `0.0` by
`or 0.0`.  Timestamps are in days. -/
def albumRatingAverages (db : DB) (albumId : Nat) (now : Int) : ℚ × ℚ :=
  let rs := ratingSet db albumId
  let allTime := pyOrZero (aggregateAvg (rs.map (fun r => r.stars)))
  let sixtyDaysAgo := now - 60
  let recentRs := rs.filter (fun r => decide (sixtyDaysAgo ≤ r.createdAt))
  let recent := pyOrZero (aggregateAvg (recentRs.map (fun r => r.stars)))
  (allTime, recent)

/-! ## Song position assignment (`models.py`, `Song.save`) -/

/-- The `order_by("-position").values_list("position", flat=True).first()`
lookup of `Song.save`: the greatest non-null position among the given
songs, or `none` when no non-null position exists (SQL sorts nulls after
the values under the descending order used here). -/
def lastPosition : List Song → Option Nat
  | [] => none
  | s :: rest =>
    match s.position, lastPosition rest with
    | none, r => r
    | some p, none => some p
    | some p, some q => some (max p q)

/-- Position assigned by `Song.save` on creation when `position is None`:
`(last_pos or 0) + 1`, where Python's `or` maps both `None` and `0` to
`0`. -/
def nextPosition (albumSongs : List Song) : Nat :=
  (match lastPosition albumSongs with
    | none => 0
    | some n => n) + 1

/-- `Song.save` on the creation path (`self.pk is None`) with
`position is None` — the only way the browsable form (`position` is
`editable=False`) or the API (`SongSerializer` omits `position` from
`fields`) can create a song: compute the album-scoped maximum and store
max-plus-one. -/
def songObjectsCreate (db : DB) (id : Nat) (title : String) (length : Nat)
    (albumId : Nat) : DB :=
  let albumSongs := db.songs.filter (fun t => t.albumId == albumId)
  let pos := nextPosition albumSongs
  { db with songs := db.songs ++ [⟨id, title, length, some pos, albumId⟩] }

/-! ## API viewsets (`src/api_views.py`) -/

/-- Result of an API request. -/
inductive ApiResult (α : Type) where
  | notFound404
  | ok (entity : α)
deriving Repr, DecidableEq

/-- Permission check of `AlbumViewSet` and `SongViewSet` (`api_views.py`):
both are `ModelViewSet`s that declare no `permission_classes` and override
no action, so Django REST Framework's default permission (`AllowAny`)
applies and `check_permissions` passes for every principal, authenticated
or not. -/
def modelViewSetCheckPermissions (user : Principal) : Bool :=
  let _ := user
  true

/-- `AlbumViewSet` create (`api_views.py` plus `AlbumSerializer`): after
the (vacuous) permission check the album is written; `artist_account` is
not among the serializer's fields, so it is never set by this path. -/
def albumViewSetCreate (user : Principal) (db : DB) (id : Nat)
    (title artistName : String) : Option DB :=
  if modelViewSetCheckPermissions user then
    some { db with albums :=
      db.albums ++ [⟨id, title, artistName, none, slugify title⟩] }
  else none

/-- `AlbumViewSet` destroy (`api_views.py`): permission check, object
lookup over `Album.objects.all()`, then deletion. -/
def albumViewSetDestroy (user : Principal) (db : DB) (pk : Nat) :
    Option (ApiResult Unit × DB) :=
  if modelViewSetCheckPermissions user then
    match db.albums.find? (fun a => a.id == pk) with
    | none => some (.notFound404, db)
    | some _ =>
      some (.ok (), { db with albums := db.albums.filter (fun a => !(a.id == pk)) })
  else none

/-- `AlbumViewSet` update (`api_views.py` plus `AlbumSerializer`): after
the (vacuous) permission check the object is resolved over
`Album.objects.all()`; the serializer's writable fields are applied and
`Album.save` recomputes the slug from the title; `artist_account` is not
among the serializer's fields and is preserved. -/
def albumViewSetUpdate (user : Principal) (db : DB) (pk : Nat)
    (title artistName : String) : Option (ApiResult Unit × DB) :=
  if modelViewSetCheckPermissions user then
    match db.albums.find? (fun a => a.id == pk) with
    | none => some (.notFound404, db)
    | some _ =>
      let updatedAlbums := db.albums.map (fun a =>
        if a.id == pk then
          { a with
            title := title
            artistName := artistName
            slug := slugify title }
        else a)
      some (.ok (), { db with albums := updatedAlbums })
  else none

/-- `SongViewSet` create (`api_views.py` plus `SongSerializer`): no
permission check beyond the `AllowAny` default; `position` is not a
serializer field, so `Song.save` runs its max-plus-one assignment. -/
def songViewSetCreate (user : Principal) (db : DB) (id : Nat)
    (title : String) (length albumId : Nat) : Option DB :=
  if modelViewSetCheckPermissions user then
    some (songObjectsCreate db id title length albumId)
  else none

/-- `SongViewSet` update (`api_views.py`): resolve over
`Song.objects.all()`, apply the writable fields (`title`, `length`,
`album`); the non-creating `Song.save` path leaves `position` untouched. -/
def songViewSetUpdate (user : Principal) (db : DB) (pk : Nat)
    (title : String) (length albumId : Nat) : Option (ApiResult Unit × DB) :=
  if modelViewSetCheckPermissions user then
    match db.songs.find? (fun s => s.id == pk) with
    | none => some (.notFound404, db)
    | some _ =>
      let updatedSongs := db.songs.map (fun s =>
        if s.id == pk then
          { s with
            title := title
            length := length
            albumId := albumId }
        else s)
      some (.ok (), { db with songs := updatedSongs })
  else none

/-- `SongViewSet` destroy (`api_views.py`): permission check, lookup over
`Song.objects.all()`, deletion. -/
def songViewSetDestroy (user : Principal) (db : DB) (pk : Nat) :
    Option (ApiResult Unit × DB) :=
  if modelViewSetCheckPermissions user then
    match db.songs.find? (fun s => s.id == pk) with
    | none => some (.notFound404, db)
    | some _ =>
      some (.ok (),
        { db with songs := db.songs.filter (fun s => !(s.id == pk)) })
  else none

/-- `PlaylistViewSet.get_queryset` (`api_views.py`): only public
playlists. -/
def playlistViewSetQueryset (db : DB) : List Playlist :=
  db.playlists.filter (fun p => p.visibility == .public)

/-- `PlaylistViewSet` retrieve (`api_views.py`): a `ReadOnlyModelViewSet`
resolves the object inside `get_queryset()`, so a playlist outside the
public-only queryset yields a 404 even when its id exists. -/
def playlistViewSetRetrieve (db : DB) (pk : Nat) : ApiResult Playlist :=
  match (playlistViewSetQueryset db).find? (fun p => p.id == pk) with
  | none => .notFound404
  | some p => .ok p

/-- `PlaylistDetailView` (`views.py`): a plain `DetailView` with
`model = Playlist`, so the lookup runs over `Playlist.objects.all()`,
unscoped by visibility or ownership. -/
def playlistDetailView (db : DB) (pk : Nat) : DetailResult Playlist :=
  match db.playlists.find? (fun p => p.id == pk) with
  | none => .notFound404
  | some p => .rendered p

/-! ## Concrete fixtures, mirroring the repository's own test data
(`src/test_views.py`) -/

/-- An anonymous principal. -/
def guestP : Principal := ⟨false, [], none⟩

/-- An authenticated principal in no group, whose profile is user 1. -/
def memberP : Principal := ⟨true, [], some 1⟩

/-- An authenticated `Artist` whose profile is user 1. -/
def artistP : Principal := ⟨true, [ "Artist" ], some 1⟩

/-- An authenticated `DottifyAdmin` with profile 9. -/
def adminP : Principal := ⟨true, [ "DottifyAdmin" ], some 9⟩

/-- A principal in both the `DottifyAdmin` and `Artist` groups, profile 1. -/
def adminArtistP : Principal := ⟨true, [ "DottifyAdmin", "Artist" ], some 1⟩

/-- An authenticated `Artist` whose profile lookup raises `DoesNotExist`. -/
def artistNoProfileP : Principal := ⟨true, [ "Artist" ], none⟩

/-- An album whose `artist_account` is profile 1. -/
def albumByUser1 : Album := ⟨1, "Explosion!!!", "Megumin", some 1, "explosion"⟩

/-- An album whose `artist_account` is profile 2. -/
def albumByUser2 : Album := ⟨2, "Second Album", "Other", some 2, "second-album"⟩

/-- A `HIDDEN` playlist owned by profile 1. -/
def hiddenPlaylist : Playlist := ⟨1, "degen", .hidden, 1⟩

/-- A `PUBLIC` playlist owned by profile 1. -/
def publicPlaylist : Playlist := ⟨2, "open", .public, 1⟩

/-- A store with one profile, two albums, and the two playlists above. -/
def sampleDB : DB :=
  ⟨[ ⟨1, "explosion!!!"⟩ ], [ albumByUser1, albumByUser2 ], [],
   [ hiddenPlaylist, publicPlaylist ], []⟩

/-- A store carrying the spec's rating example for album 1, evaluated at
day 100: a 5.0-star rating created now and a 1.0-star rating created 70
days ago. -/
def ratingsDB : DB :=
  ⟨[], [ albumByUser1 ], [], [], [ ⟨5, some 1, 100⟩, ⟨1, some 1, 30⟩ ]⟩

/-- A store whose song table is empty: every album in it is fresh. -/
def freshDB : DB := ⟨[], [ albumByUser1 ], [], [], []⟩

/-! ## Claim theorems -/

/-- C1, counterexample.  The claim says a plain `Member` principal is
denied every album create at every entry point.  The browsable view does
deny them, but `AlbumViewSet` performs no permission check, so the same
principal's create succeeds through the API. -/
theorem api_album_create_permits_plain_member :
    memberP.isAuthenticated = true ∧ memberP.groups = [] ∧
    albumCreateView memberP = .forbidden403 ∧
    (albumViewSetCreate memberP sampleDB 7 "New Album" "Someone").isSome = true := by
  decide

/-- C1, amended.  The browsable album-create entry point is gated exactly
by authentication plus membership in `Artist` or `DottifyAdmin`, and a
`Guest` is turned away from every browsable mutating view; but the API
viewsets apply no authorization at all: for every principal — `Guest` or
plain `Member` included — `AlbumViewSet` create succeeds (appending an
album with no `artist_account`), `SongViewSet` create succeeds (running
the server-side position assignment), and album update, album destroy,
song update and song destroy never fail their permission check. -/
theorem browsable_gate_absent_from_api (user : Principal) (db : DB) :
    (albumCreateView user = .allowed ↔
      user.isAuthenticated = true ∧ isArtistOrAdminTestFunc user = true) ∧
    (user.isAuthenticated = false →
      albumCreateView user = .loginRedirect ∧
      ∀ a, albumUpdateView user a = .loginRedirect ∧
        albumDeleteView user a = .loginRedirect ∧
        songCreateView user a = .loginRedirect ∧
        songUpdateView user a = .loginRedirect ∧
        songDeleteView user a = .loginRedirect) ∧
    (∀ id t an, albumViewSetCreate user db id t an =
      some { db with albums := db.albums ++ [ ⟨id, t, an, none, slugify t⟩ ] }) ∧
    (∀ pk t an, albumViewSetUpdate user db pk t an ≠ none) ∧
    (∀ pk, albumViewSetDestroy user db pk ≠ none) ∧
    (∀ id t l a, songViewSetCreate user db id t l a =
      some (songObjectsCreate db id t l a)) ∧
    (∀ pk t l a, songViewSetUpdate user db pk t l a ≠ none) ∧
    (∀ pk, songViewSetDestroy user db pk ≠ none) := by
  refine ⟨?_, ?_, ?_, ?_, ?_, ?_, ?_, ?_⟩
  · constructor
    · intro h
      cases hAuth : user.isAuthenticated <;>
        cases hRole : isArtistOrAdminTestFunc user <;>
        simp_all [albumCreateView]
    · rintro ⟨hAuth, hRole⟩
      simp [albumCreateView, hAuth, hRole]
  · intro hAnon
    refine ⟨by simp [albumCreateView, hAnon], fun a => ?_⟩
    simp [albumUpdateView, albumDeleteView, songCreateView, songUpdateView,
      songDeleteView, hAnon]
  · intro id t an
    rfl
  · intro pk t an
    unfold albumViewSetUpdate
    cases h : db.albums.find? (fun a => a.id == pk) <;>
      simp [modelViewSetCheckPermissions, h]
  · intro pk
    unfold albumViewSetDestroy
    cases h : db.albums.find? (fun a => a.id == pk) <;>
      simp [modelViewSetCheckPermissions, h]
  · intro id t l a
    rfl
  · intro pk t l a
    unfold songViewSetUpdate
    cases h : db.songs.find? (fun s => s.id == pk) <;>
      simp [modelViewSetCheckPermissions, h]
  · intro pk
    unfold songViewSetDestroy
    cases h : db.songs.find? (fun s => s.id == pk) <;>
      simp [modelViewSetCheckPermissions, h]

/-- C1, witness: the guest denial at the browsable view, the unchecked
API album destroy and album update, and the member's successful API song
create. -/
theorem browsable_gate_absent_from_api_w :
    albumCreateView guestP = .loginRedirect ∧
    albumViewSetDestroy guestP sampleDB 1 ≠ none ∧
    albumViewSetUpdate guestP sampleDB 1 "Renamed" "Someone" ≠ none ∧
    songViewSetCreate memberP freshDB 9 "New Song" 120 1 =
      some (songObjectsCreate freshDB 9 "New Song" 120 1) ∧
    songViewSetDestroy memberP sampleDB 1 ≠ none :=
  ⟨((browsable_gate_absent_from_api guestP sampleDB).2.1 rfl).1,
   (browsable_gate_absent_from_api guestP sampleDB).2.2.2.2.1 1,
   (browsable_gate_absent_from_api guestP sampleDB).2.2.2.1 1 "Renamed" "Someone",
   (browsable_gate_absent_from_api memberP freshDB).2.2.2.2.2.1 9 "New Song" 120 1,
   (browsable_gate_absent_from_api memberP sampleDB).2.2.2.2.2.2.2 1⟩

/-- C2, counterexample.  The claim says a `Member` principal lists all
albums; `HomeView.get_queryset` gives an authenticated group-less
principal `Album.objects.none()` instead, here on a store holding two
albums. -/
theorem member_home_listing_is_empty :
    memberP.isAuthenticated = true ∧ memberP.groups = [] ∧
    sampleDB.albums ≠ [] ∧
    homeViewGetQueryset memberP sampleDB = [] := by
  decide

/-- C2, amended.  Album listing by role: `Guest` and `Admin` list all
albums; an `Artist` (not admin) lists exactly the albums whose
`artist_account` is their profile, or nothing when the profile lookup
fails; a plain `Member` lists no albums at all. -/
theorem home_listing_by_role (user : Principal) (db : DB) (du : Nat) :
    (user.isAuthenticated = false → homeViewGetQueryset user db = db.albums) ∧
    (user.isAuthenticated = true → inGroup user "DottifyAdmin" = true →
      homeViewGetQueryset user db = db.albums) ∧
    (user.isAuthenticated = true → inGroup user "DottifyAdmin" = false →
      inGroup user "Artist" = true → user.profileId = some du →
      homeViewGetQueryset user db =
        db.albums.filter (fun a => a.artistAccount == some du)) ∧
    (user.isAuthenticated = true → inGroup user "DottifyAdmin" = false →
      inGroup user "Artist" = true → user.profileId = none →
      homeViewGetQueryset user db = []) ∧
    (user.isAuthenticated = true → inGroup user "DottifyAdmin" = false →
      inGroup user "Artist" = false → homeViewGetQueryset user db = []) := by
  refine ⟨fun h => ?_, fun h1 h2 => ?_, fun h1 h2 h3 h4 => ?_,
    fun h1 h2 h3 h4 => ?_, fun h1 h2 h3 => ?_⟩ <;>
    simp_all [homeViewGetQueryset]

/-- C2, witness: the artist scoping at the sample store. -/
theorem home_listing_by_role_w :
    homeViewGetQueryset artistP sampleDB =
      sampleDB.albums.filter (fun a => a.artistAccount == some 1) :=
  (home_listing_by_role artistP sampleDB 1).2.2.1 rfl rfl rfl rfl

/-- C3, counterexample.  The claim says a `Member` whose profile equals
the album's `artist_account` is denied album delete; the update view does
deny them, but `AlbumDeleteView.test_func` skips the `Artist` group check
and allows any principal whose profile owns the album. -/
theorem member_owner_can_delete_album :
    memberP.isAuthenticated = true ∧ memberP.groups = [] ∧
    albumByUser1.artistAccount = memberP.profileId ∧
    albumUpdateView memberP albumByUser1 = .forbidden403 ∧
    albumDeleteView memberP albumByUser1 = .allowed := by
  decide

/-- C3, amended.  Album update follows the claim: `Admin` always, `Artist`
owner only, everyone else denied (a `Guest` by the login redirect, an
`Artist` with no profile falling through to the forbidden branch).  Album
delete differs: besides `Admin`, ANY authenticated principal whose profile
equals the album's `artist_account` — `Artist` group or not — is
permitted, and otherwise it denies exactly like update. -/
theorem album_update_delete_authorization (user : Principal) (album : Album)
    (du : Nat) :
    (user.isAuthenticated = true → inGroup user "DottifyAdmin" = true →
      albumUpdateView user album = .allowed ∧
      albumDeleteView user album = .allowed) ∧
    (user.isAuthenticated = true → inGroup user "Artist" = true →
      user.profileId = some du → album.artistAccount = some du →
      albumUpdateView user album = .allowed) ∧
    (user.isAuthenticated = true → inGroup user "DottifyAdmin" = false →
      inGroup user "Artist" = false →
      albumUpdateView user album = .forbidden403) ∧
    (user.isAuthenticated = true → inGroup user "DottifyAdmin" = false →
      user.profileId = some du → album.artistAccount ≠ some du →
      albumUpdateView user album = .forbidden403 ∧
      albumDeleteView user album = .forbidden403) ∧
    (user.isAuthenticated = true → inGroup user "DottifyAdmin" = false →
      user.profileId = none →
      albumUpdateView user album = .forbidden403 ∧
      albumDeleteView user album = .forbidden403) ∧
    (user.isAuthenticated = false →
      albumUpdateView user album = .loginRedirect ∧
      albumDeleteView user album = .loginRedirect) ∧
    (user.isAuthenticated = true → user.profileId = some du →
      album.artistAccount = some du →
      albumDeleteView user album = .allowed) := by
  refine ⟨fun h1 h2 => ?_, fun h1 h2 h3 h4 => ?_, fun h1 h2 h3 => ?_,
    fun h1 h2 h3 h4 => ?_, fun h1 h2 h3 => ?_, fun h1 => ?_,
    fun h1 h2 h3 => ?_⟩ <;>
    simp_all [albumUpdateView, albumDeleteView, albumUpdateTestFunc,
      albumDeleteTestFunc]

/-- C3, witness: the anomalous member-owner delete permission, derived
from the amended theorem at the sample data. -/
theorem album_update_delete_authorization_w :
    albumDeleteView memberP albumByUser1 = .allowed :=
  (album_update_delete_authorization memberP albumByUser1 1).2.2.2.2.2.2
    rfl rfl rfl

/-- C4, counterexample.  The claim says a principal in both the `Admin`
and `Artist` groups may create a song under any album without the
ownership check; `SongCreateView.form_valid` runs the `Artist` ownership
check with no prior `DottifyAdmin` test and forbids them on an album whose
`artist_account` is another profile. -/
theorem admin_artist_denied_foreign_song_create :
    inGroup adminArtistP "DottifyAdmin" = true ∧
    inGroup adminArtistP "Artist" = true ∧
    albumByUser2.artistAccount ≠ adminArtistP.profileId ∧
    songCreateView adminArtistP albumByUser2 = .forbiddenNotYourAlbum := by
  decide

/-- C4, amended.  `Admin` does take precedence over `Artist` in the home
listing and in the album/song update and delete decisions, but NOT in song
creation: there the `Artist` ownership check fires for any principal in
the `Artist` group, so an `Admin`-and-`Artist` principal may create a song
only under an album whose `artist_account` is their own profile, and is
denied with the "not your album" (or "no account") signal otherwise. -/
theorem song_create_ownership_check_binds_admin_artists (user : Principal)
    (album : Album) (du : Nat) (hAuth : user.isAuthenticated = true)
    (hAdmin : inGroup user "DottifyAdmin" = true)
    (hArtist : inGroup user "Artist" = true) :
    (user.profileId = some du →
      songCreateView user album =
        (if album.artistAccount == some du then .allowed
         else .forbiddenNotYourAlbum)) ∧
    (user.profileId = none →
      songCreateView user album = .forbiddenNoAccount) ∧
    albumUpdateView user album = .allowed ∧
    albumDeleteView user album = .allowed ∧
    songUpdateView user album = .allowed ∧
    songDeleteView user album = .allowed ∧
    (∀ db, homeViewGetQueryset user db = db.albums) := by
  refine ⟨fun hp => ?_, fun hp => ?_, ?_, ?_, ?_, ?_, fun db => ?_⟩ <;>
    simp_all [songCreateView, songCreateFormValid, isArtistOrAdminTestFunc,
      albumUpdateView, albumUpdateTestFunc, albumDeleteView,
      albumDeleteTestFunc, songUpdateView, songUpdateTestFunc,
      songDeleteView, songDeleteTestFunc, homeViewGetQueryset]

/-- C4, witness: the dual-group principal against the foreign album. -/
theorem song_create_ownership_check_binds_admin_artists_w :
    songCreateView adminArtistP albumByUser2 =
      (if albumByUser2.artistAccount == some 1 then ViewResult.allowed
       else ViewResult.forbiddenNotYourAlbum) :=
  (song_create_ownership_check_binds_admin_artists adminArtistP albumByUser2 1
    rfl rfl rfl).1 rfl

/-- C5, counterexample.  The claim says a `Hidden` playlist is retrievable
by id at the API just like at the browsable detail view; on a store whose
playlist 1 is `Hidden`, the browsable view renders it but
`PlaylistViewSet` — which resolves objects inside its public-only
queryset — answers 404. -/
theorem hidden_playlist_api_retrieve_404 :
    hiddenPlaylist.visibility = .hidden ∧
    sampleDB.playlists.find? (fun p => p.id == 1) = some hiddenPlaylist ∧
    playlistDetailView sampleDB 1 = .rendered hiddenPlaylist ∧
    playlistViewSetRetrieve sampleDB 1 = .notFound404 := by
  decide

/-- C5, amended.  The browsable playlist detail view is unscoped: any
playlist found by id is rendered whatever its visibility or owner.  The
API retrieve is not: it answers with a playlist only when that playlist is
`Public`, and a playlist id resolves through the API exactly when a
`Public` playlist carries that id. -/
theorem playlist_detail_unscoped_but_api_public_only (db : DB) (pk : Nat) :
    (∀ p, db.playlists.find? (fun q => q.id == pk) = some p →
      playlistDetailView db pk = .rendered p) ∧
    (∀ p, playlistViewSetRetrieve db pk = .ok p →
      p ∈ db.playlists ∧ p.id = pk ∧ p.visibility = .public) ∧
    ((∃ p ∈ db.playlists, p.id = pk ∧ p.visibility = .public) ↔
      playlistViewSetRetrieve db pk ≠ .notFound404) := by
  refine ⟨fun p h => ?_, fun p h => ?_, ?_⟩
  · simp [playlistDetailView, h]
  · unfold playlistViewSetRetrieve at h
    cases hf : (playlistViewSetQueryset db).find? (fun q => q.id == pk) with
    | none => simp [hf] at h
    | some q =>
      rw [hf] at h
      cases h
      have hMem := List.mem_of_find?_eq_some hf
      have hPred := List.find?_some hf
      rw [playlistViewSetQueryset, List.mem_filter] at hMem
      refine ⟨hMem.1, by simpa using hPred, by simpa using hMem.2⟩
  · unfold playlistViewSetRetrieve
    cases hf : (playlistViewSetQueryset db).find? (fun q => q.id == pk) with
    | none =>
      rw [List.find?_eq_none] at hf
      simp only [ne_eq, not_true_eq_false, iff_false, not_not]
      rintro ⟨p, hp, hid, hvis⟩
      have hpMem : p ∈ playlistViewSetQueryset db := by
        rw [playlistViewSetQueryset, List.mem_filter]
        exact ⟨hp, by simpa using hvis⟩
      have hne := hf p hpMem
      simp [hid] at hne
    | some q =>
      have hMem := List.mem_of_find?_eq_some hf
      have hPred := List.find?_some hf
      rw [playlistViewSetQueryset, List.mem_filter] at hMem
      simp only [ne_eq, reduceCtorEq, not_false_eq_true, iff_true]
      exact ⟨q, hMem.1, by simpa using hPred, by simpa using hMem.2⟩

/-- C5, witness: both directions at the sample store, whose playlist 2 is
public. -/
theorem playlist_detail_unscoped_but_api_public_only_w :
    playlistDetailView sampleDB 1 = .rendered hiddenPlaylist ∧
    playlistDetailView sampleDB 2 = .rendered publicPlaylist ∧
    playlistViewSetRetrieve sampleDB 2 ≠ .notFound404 :=
  ⟨(playlist_detail_unscoped_but_api_public_only sampleDB 1).1 hiddenPlaylist rfl,
   (playlist_detail_unscoped_but_api_public_only sampleDB 2).1 publicPlaylist rfl,
   (playlist_detail_unscoped_but_api_public_only sampleDB 2).2.2.mp
     ⟨publicPlaylist, by decide, by decide, by decide⟩⟩

/-- Helper for C6: the `aggregate(Avg(...)) or 0.0` pipeline yields the
arithmetic mean on a nonempty list (the Python `or` collapse of a `0.0`
mean to `0.0` is the mean itself). -/
theorem pyOrZero_aggregateAvg (xs : List ℚ) (h : xs ≠ []) :
    pyOrZero (aggregateAvg xs) = xs.sum / (xs.length : ℚ) := by
  have hlen : ¬xs.length = 0 := by simpa [List.length_eq_zero] using h
  simp only [aggregateAvg, if_neg hlen, pyOrZero]
  by_cases hz : xs.sum / (xs.length : ℚ) = 0
  · simp [hz]
  · simp [hz]

/-- Helper for C6: the pipeline yields `0.0` on an empty list. -/
theorem pyOrZero_aggregateAvg_nil : pyOrZero (aggregateAvg []) = 0 := rfl

/-- C6.  The all-time figure is the arithmetic mean of stars over the
album's ratings and the recent figure the mean over those created within
the last 60 days; both are `0.0` when no rating qualifies; and on the
spec's example — 5.0 stars created now, 1.0 stars created 70 days before
— the figures are `3.0` and `5.0`. -/
theorem rating_averages_spec (db : DB) (aid : Nat) (now : Int) :
    (ratingSet db aid = [] → albumRatingAverages db aid now = (0, 0)) ∧
    (ratingSet db aid ≠ [] →
      (albumRatingAverages db aid now).1 =
        ((ratingSet db aid).map (fun r => r.stars)).sum /
          ((ratingSet db aid).length : ℚ)) ∧
    ((ratingSet db aid).filter (fun r => decide (now - 60 ≤ r.createdAt)) = [] →
      (albumRatingAverages db aid now).2 = 0) ∧
    ((ratingSet db aid).filter (fun r => decide (now - 60 ≤ r.createdAt)) ≠ [] →
      (albumRatingAverages db aid now).2 =
        (((ratingSet db aid).filter
            (fun r => decide (now - 60 ≤ r.createdAt))).map
          (fun r => r.stars)).sum /
          (((ratingSet db aid).filter
            (fun r => decide (now - 60 ≤ r.createdAt))).length : ℚ)) ∧
    albumRatingAverages ratingsDB 1 100 = (3, 5) ∧
    albumRatingAverages ratingsDB 2 100 = (0, 0) := by
  have hunfold : albumRatingAverages db aid now =
      (pyOrZero (aggregateAvg ((ratingSet db aid).map (fun r => r.stars))),
       pyOrZero (aggregateAvg (((ratingSet db aid).filter
         (fun r => decide (now - 60 ≤ r.createdAt))).map
           (fun r => r.stars)))) := rfl
  refine ⟨fun h => ?_, fun h => ?_, fun h => ?_, fun h => ?_, ?_, ?_⟩
  · rw [hunfold, h]
    simp [pyOrZero, aggregateAvg]
  · rw [hunfold]
    have := pyOrZero_aggregateAvg ((ratingSet db aid).map (fun r => r.stars))
      (by simpa using h)
    simpa [List.length_map] using this
  · rw [hunfold, h]
    simp [pyOrZero, aggregateAvg]
  · rw [hunfold]
    have := pyOrZero_aggregateAvg
      (((ratingSet db aid).filter (fun r => decide (now - 60 ≤ r.createdAt))).map
        (fun r => r.stars)) (by simpa using h)
    simpa [List.length_map] using this
  · have hset : ratingSet ratingsDB 1 =
        [ ⟨5, some 1, 100⟩, ⟨1, some 1, 30⟩ ] := rfl
    have hrec : (ratingSet ratingsDB 1).filter
        (fun r => decide ((100 : Int) - 60 ≤ r.createdAt)) =
        [ ⟨5, some 1, 100⟩ ] := rfl
    simp only [albumRatingAverages, hset, hrec, List.map_cons, List.map_nil]
    norm_num [pyOrZero, aggregateAvg]
  · have hset : ratingSet ratingsDB 2 = [] := rfl
    simp [albumRatingAverages, hset, pyOrZero, aggregateAvg]

/-- C6, witness: the nonempty-mean clause instantiated at the example
store. -/
theorem rating_averages_spec_w :
    (albumRatingAverages ratingsDB 1 100).1 =
      ((ratingSet ratingsDB 1).map (fun r => r.stars)).sum /
        ((ratingSet ratingsDB 1).length : ℚ) :=
  (rating_averages_spec ratingsDB 1 100).2.1 (by decide)

/-- C7.  When a profile resolves, a missing or non-canonical slug makes
`user_detail` redirect to the same id with `slugify(display_name)`, and
the exact canonical slug renders with no redirect; the album detail route,
by contrast, ignores its slug kwarg entirely, so any slug value yields the
same (non-redirecting) response. -/
theorem user_detail_canonical_slug (db : DB) (pk : Nat) (slug : Option String)
    (du : DottifyUser)
    (hfind : db.users.find? (fun u => u.id == pk) = some du) :
    (slug ≠ some (slugify du.displayName) →
      user_detail db pk slug = .redirectTo pk (slugify du.displayName)) ∧
    (slug = some (slugify du.displayName) →
      user_detail db pk slug =
        .rendered du.id (db.playlists.filter (fun p => p.owner == du.id))) ∧
    (∀ apk s1 s2, albumDetailView db apk s1 = albumDetailView db apk s2) := by
  refine ⟨fun hne => ?_, fun heq => ?_, fun apk s1 s2 => rfl⟩
  · unfold user_detail
    rw [hfind]
    simp [bne_iff_ne, hne]
  · unfold user_detail
    rw [hfind]
    simp [heq]

/-- C7, witness: the repository's own fixture, display name
`"explosion!!!"` with canonical slug `"explosion"`: the missing slug
redirects, and the canonical slug renders. -/
theorem user_detail_canonical_slug_w :
    user_detail sampleDB 1 none = .redirectTo 1 (slugify "explosion!!!") ∧
    user_detail sampleDB 1 (some (slugify "explosion!!!")) =
      .rendered 1 (sampleDB.playlists.filter (fun p => p.owner == 1)) ∧
    slugify "explosion!!!" = "explosion" :=
  ⟨(user_detail_canonical_slug sampleDB 1 none ⟨1, "explosion!!!"⟩ rfl).1
      (by simp),
   (user_detail_canonical_slug sampleDB 1 (some (slugify "explosion!!!"))
      ⟨1, "explosion!!!"⟩ rfl).2.1 rfl,
   by decide⟩

/-- C8.  An unauthenticated album search answers 401 for every query,
the empty query included, before any filtering is considered. -/
theorem album_search_unauthenticated_401 (user : Principal) (query : String)
    (db : DB) (hAnon : user.isAuthenticated = false) :
    album_search user query db = .unauthorized401 := by
  simp [album_search, hAnon]

/-- C8, witness: the anonymous principal on empty and nonempty queries. -/
theorem album_search_unauthenticated_401_w :
    album_search guestP "" sampleDB = .unauthorized401 ∧
    album_search guestP "Explosion" sampleDB = .unauthorized401 :=
  ⟨album_search_unauthenticated_401 guestP "" sampleDB rfl,
   album_search_unauthenticated_401 guestP "Explosion" sampleDB rfl⟩

/-- C9.  Creating three songs in sequence under a fresh album assigns
positions 1, 2, 3 in creation order; in general each creation stores
max-position-plus-one for its album, with the position always
server-computed (the creation interface takes no position). -/
theorem song_positions_sequential (db : DB) (aid : Nat)
    (hFresh : db.songs.filter (fun t => t.albumId == aid) = [])
    (i1 i2 i3 l1 l2 l3 : Nat) (t1 t2 t3 : String) :
    (songObjectsCreate (songObjectsCreate (songObjectsCreate db i1 t1 l1 aid)
        i2 t2 l2 aid) i3 t3 l3 aid).songs =
      db.songs ++ [ ⟨i1, t1, l1, some 1, aid⟩, ⟨i2, t2, l2, some 2, aid⟩,
        ⟨i3, t3, l3, some 3, aid⟩ ] ∧
    (∀ (db2 : DB) (i l a : Nat) (t : String),
      (songObjectsCreate db2 i t l a).songs =
        db2.songs ++ [ ⟨i, t, l,
          some ((lastPosition (db2.songs.filter
            (fun s => s.albumId == a))).getD 0 + 1), a⟩ ]) := by
  constructor
  · have h1 : songObjectsCreate db i1 t1 l1 aid =
        { db with songs := db.songs ++ [ ⟨i1, t1, l1, some 1, aid⟩ ] } := by
      simp [songObjectsCreate, nextPosition, hFresh, lastPosition]
    have h2 : songObjectsCreate (songObjectsCreate db i1 t1 l1 aid) i2 t2 l2 aid =
        { db with songs := db.songs ++ [ ⟨i1, t1, l1, some 1, aid⟩,
            ⟨i2, t2, l2, some 2, aid⟩ ] } := by
      rw [h1]
      simp [songObjectsCreate, nextPosition, hFresh, lastPosition,
        List.filter_append]
    rw [h2]
    simp [songObjectsCreate, nextPosition, hFresh, lastPosition,
      List.filter_append]
  · intro db2 i l a t
    cases h : lastPosition (db2.songs.filter (fun s => s.albumId == a)) <;>
      simp [songObjectsCreate, nextPosition, h, Option.getD]

/-- C9, witness: three creations under the fresh album of the empty song
store. -/
theorem song_positions_sequential_w :
    (songObjectsCreate (songObjectsCreate (songObjectsCreate freshDB
        1 "Chunchunmaru" 281 1) 2 "Bakuretsu Magic" 540 1)
        3 "Third" 100 1).songs =
      freshDB.songs ++ [ ⟨1, "Chunchunmaru", 281, some 1, 1⟩,
        ⟨2, "Bakuretsu Magic", 540, some 2, 1⟩,
        ⟨3, "Third", 100, some 3, 1⟩ ] :=
  (song_positions_sequential freshDB 1 rfl 1 2 3 281 540 100
    "Chunchunmaru" "Bakuretsu Magic" "Third").1

/-- C10.  For an authenticated principal the empty query returns the
empty result set — `Album.objects.none()` — rather than the set of all
albums, because the view tests the query's truthiness before filtering. -/
theorem album_search_empty_query_empty_result (user : Principal) (db : DB)
    (hAuth : user.isAuthenticated = true) :
    album_search user "" db = .rendered [] 0 := by
  simp [album_search, hAuth]

/-- C10, witness: the member principal on a store holding two albums. -/
theorem album_search_empty_query_empty_result_w :
    sampleDB.albums ≠ [] ∧
    album_search memberP "" sampleDB = .rendered [] 0 :=
  ⟨by decide, album_search_empty_query_empty_result memberP sampleDB rfl⟩

end Dottify
